import Mathlib

/-!
Shallow embedding of the TaskForge backend (Node/Express + SQLite) and proofs
about its specification claims.

Sources embedded:
* `backend/src/models/database.js` — table schemas (users, projects,
  project_members, tasks) become structures; the store is a `DB` of row lists.
  SQL `getOne` on a keyed lookup becomes `List.find?`; `UPDATE ... WHERE`
  becomes a `List.map` guarded on the key; `DELETE ... WHERE` a `List.filter`.
* `backend/src/middleware/auth.js` — `generateToken`, `authenticateToken`.
  A JWT is modelled as its decoded payload plus the secret it was signed with;
  signature verification is equality of secrets.
* `backend/src/routes/auth.js` — `POST /api/auth/register`.
* `backend/src/routes/tasks.js` — `GET /api/tasks`, `GET /api/tasks/:id`,
  `POST /api/tasks`, `PUT /api/tasks/:id`.
* `backend/src/routes/projects.js` / user routes — `DELETE
  /api/projects/:id/members/:userId`, `PUT /api/users/:id/role`,
  `PUT /api/users/:id/toggle-active`.

Timestamps and dates are `Nat` (CURRENT_TIMESTAMP is passed in as `now`).
Fallible handlers return `Except ApiError ...`; an error response leaves the
store untouched, matching the handlers, which only run their UPDATE/INSERT
after every check has passed. The activity_log and comments tables are
write-only / untouched by every claim under study and are omitted from `DB`.
-/

namespace TaskForge

/-- Row of the `users` table (database.js): id, username, email, password hash,
full name, global role ∈ {admin, manager, member}, active flag. -/
structure User where
  id : Nat
  username : String
  email : String
  password_hash : String
  full_name : String
  role : String
  is_active : Bool
deriving Repr, DecidableEq

/-- Row of the `projects` table: id, name, description, owner, status, color. -/
structure Project where
  id : Nat
  name : String
  description : Option String
  owner_id : Nat
  status : String
  color : String
deriving Repr, DecidableEq

/-- Row of the `project_members` junction table: (project_id, user_id) with a
project-scoped role ∈ {owner, admin, member, viewer}. -/
structure Membership where
  project_id : Nat
  user_id : Nat
  role : String
deriving Repr, DecidableEq

/-- Row of the `tasks` table. `due_date`, `completed_at` are nullable;
`created_at` is set by the store at insertion. -/
structure Task where
  id : Nat
  title : String
  description : Option String
  project_id : Nat
  assigned_to : Option Nat
  created_by : Nat
  status : String
  priority : String
  due_date : Option Nat
  completed_at : Option Nat
  created_at : Nat
deriving Repr, DecidableEq

/-- The relational store: the four tables every claim under study touches. -/
structure DB where
  users : List User
  projects : List Project
  project_members : List Membership
  tasks : List Task
deriving Repr, DecidableEq

/-- Error taxonomy of the route handlers, by HTTP status family:
404 notFound, 403 forbidden, 400 validationFailed, 409 conflict,
401 unauthorized (spec §7). -/
inductive ApiError where
  | notFound (msg : String)
  | forbidden (msg : String)
  | validationFailed (msg : String)
  | conflict (msg : String)
  | unauthorized (msg : String)
deriving Repr, DecidableEq

/-- Model of `getOne('SELECT ... FROM users WHERE id = ?')`. -/
def findUser (db : DB) (id : Nat) : Option User :=
  db.users.find? (fun u => u.id == id)

/-- Model of `getOne('SELECT ... FROM projects WHERE id = ?')`. -/
def findProject (db : DB) (id : Nat) : Option Project :=
  db.projects.find? (fun p => p.id == id)

/-- Model of `getOne('SELECT * FROM tasks WHERE id = ?')`. -/
def findTask (db : DB) (id : Nat) : Option Task :=
  db.tasks.find? (fun t => t.id == id)

/-- Model of `getOne('SELECT role FROM project_members WHERE project_id = ?
AND user_id = ?')`. -/
def findMemberRole (db : DB) (projectId userId : Nat) : Option String :=
  (db.project_members.find?
    (fun m => m.project_id == projectId && m.user_id == userId)).map (·.role)

/-- The recurring access query of tasks.js: `SELECT 1 FROM project_members
WHERE project_id = ? AND user_id = ? UNION SELECT 1 FROM projects WHERE
id = ? AND owner_id = ?` — true iff the row set is non-empty. -/
def hasProjectAccess (db : DB) (projectId userId : Nat) : Bool :=
  db.project_members.any (fun m => m.project_id == projectId && m.user_id == userId)
    || db.projects.any (fun p => p.id == projectId && p.owner_id == userId)

/-- Count of `SELECT COUNT(*) FROM users WHERE role = 'admin' AND
is_active = 1` (the last-admin guard in the user routes). -/
def activeAdminCount (db : DB) : Nat :=
  (db.users.filter (fun u => u.role == "admin" && u.is_active)).length

/-- True iff the store contains at least one active user with global role
admin — the invariant of spec §4.2 rule 6. -/
def hasActiveAdmin (db : DB) : Bool :=
  db.users.any (fun u => u.role == "admin" && u.is_active)

/-! ## Token service (middleware/auth.js) -/

/-- Decoded JWT payload as built by `generateToken`: `{ userId, username,
role }` plus the `exp` claim derived from `expiresIn`. -/
structure TokenPayload where
  userId : Nat
  username : String
  role : String
  exp : Nat
deriving Repr, DecidableEq

/-- Shallow model of a signed JWT: the decoded payload together with the
secret it was signed with; `jwt.verify` succeeds exactly when the verifying
secret equals the signing secret and the token is not expired. -/
structure Token where
  payload : TokenPayload
  signedWith : String
deriving Repr, DecidableEq

/-- Model of `generateToken(user)` (middleware/auth.js lines 94-106): signs
`{ userId: user.id, username: user.username, role: user.role }` with
`JWT_SECRET` and expiry `now + expiry` (JWT_EXPIRY, default 7 days). -/
def generateToken (user : User) (secret : String) (now expiry : Nat) : Token :=
  { payload :=
      { userId := user.id
        username := user.username
        role := user.role
        exp := now + expiry }
    signedWith := secret }

/-- Model of the `authenticateToken` middleware (middleware/auth.js lines
15-55): requires a token, verifies signature and expiry, loads the user row
by the token's `userId`, rejects a missing or deactivated user, otherwise
attaches the freshly loaded user row as the request principal. -/
def authenticateToken (db : DB) (secret : String) (now : Nat)
    (token : Option Token) : Except ApiError User :=
  match token with
  | none => .error (.unauthorized "Access token required")
  | some t =>
    if t.signedWith != secret then
      .error (.unauthorized "Invalid token")
    else if t.payload.exp ≤ now then
      .error (.unauthorized "Token expired")
    else
      match findUser db t.payload.userId with
      | none => .error (.unauthorized "User not found")
      | some user =>
        if !user.is_active then
          .error (.unauthorized "Account is deactivated")
        else
          .ok user

/-! ## Registration (routes/auth.js, POST /api/auth/register) -/

/-- Request body of POST /api/auth/register. -/
structure RegisterInput where
  username : String
  email : String
  password : String
  fullName : String
deriving Repr, DecidableEq

/-- The express-validator rules on the register route: username 3-30 chars of
`[a-zA-Z0-9_]`, a well-formed email (validator.js `isEmail`, abstracted here
to containing a single separating `@`), password ≥ 6 chars, full name 2-100
chars. -/
def validRegisterInput (i : RegisterInput) : Bool :=
  3 ≤ i.username.length && i.username.length ≤ 30
    && i.username.toList.all (fun c => c.isAlphanum || c == '_')
    && i.email.toList.contains '@'
    && 6 ≤ i.password.length
    && 2 ≤ i.fullName.length && i.fullName.length ≤ 100

/-- AUTOINCREMENT primary key for a fresh `users` row. -/
def nextUserId (db : DB) : Nat :=
  (db.users.map User.id).foldr max 0 + 1

/-- Model of POST /api/auth/register (routes/auth.js lines 232-314): after
validation, reject an existing username or email with 409; otherwise the new
user's role is admin iff `SELECT COUNT(*) FROM users` is zero, and the row is
inserted with `is_active` defaulting to 1. The password hash is abstracted as
an injection of the password string. -/
def registerUser (db : DB) (i : RegisterInput) :
    Except ApiError (DB × User) :=
  if !validRegisterInput i then
    .error (.validationFailed "Invalid registration input")
  else if db.users.any (fun u => u.username == i.username || u.email == i.email) then
    .error (.conflict "User already exists with this username or email")
  else
    let role := if db.users.length = 0 then "admin" else "member"
    let user : User :=
      { id := nextUserId db
        username := i.username
        email := i.email
        password_hash := "bcrypt:" ++ i.password
        full_name := i.fullName
        role := role
        is_active := true }
    .ok ({ db with users := db.users ++ [user] }, user)

/-! ## Task routes (routes/tasks.js) -/

/-- The `isIn` whitelist for task status in the task routes. -/
def validStatus (s : String) : Bool :=
  s == "todo" || s == "in_progress" || s == "review" || s == "done" || s == "cancelled"

/-- The `isIn` whitelist for task priority in the task routes. -/
def validPriority (p : String) : Bool :=
  p == "low" || p == "medium" || p == "high" || p == "urgent"

/-- Model of GET /api/tasks/:id (tasks.js lines 111-169): load the task by id
(404 when absent), then run the access query for the task's project and
return 403 "Access denied" when it is empty; otherwise return the task. -/
def getTask (db : DB) (userId taskId : Nat) : Except ApiError Task :=
  match findTask db taskId with
  | none => .error (.notFound "Task not found")
  | some task =>
    if !hasProjectAccess db task.project_id userId then
      .error (.forbidden "Access denied")
    else
      .ok task

/-- Request body of POST /api/tasks; optional fields absent from the JSON body
are `none`. -/
structure CreateTaskInput where
  title : String
  projectId : Nat
  description : Option String
  assignedTo : Option Nat
  priority : Option String
  status : Option String
  dueDate : Option Nat
deriving Repr, DecidableEq

/-- Express-validator rules on POST /api/tasks: title 1-200 chars,
description ≤ 2000 chars, priority/status in their whitelists when present. -/
def validCreateTaskInput (i : CreateTaskInput) : Bool :=
  1 ≤ i.title.length && i.title.length ≤ 200
    && (match i.description with | none => true | some d => d.length ≤ 2000)
    && (match i.priority with | none => true | some p => validPriority p)
    && (match i.status with | none => true | some s => validStatus s)

/-- AUTOINCREMENT primary key for a fresh `tasks` row. -/
def nextTaskId (db : DB) : Nat :=
  (db.tasks.map Task.id).foldr max 0 + 1

/-- Model of POST /api/tasks (tasks.js lines 175-279): after validation, the
creator must pass the project access query (403 otherwise); when `assignedTo`
is present and truthy, the assignee must pass the same membership-or-owner
query (400 "Assigned user is not a project member" otherwise); then the row
is inserted with defaults `priority = medium`, `status = todo` and with
`completed_at` left at its schema default NULL — the INSERT never sets it. -/
def createTask (db : DB) (userId : Nat) (i : CreateTaskInput) (now : Nat) :
    Except ApiError (DB × Task) :=
  if !validCreateTaskInput i then
    .error (.validationFailed "Invalid task input")
  else if !hasProjectAccess db i.projectId userId then
    .error (.forbidden "No access to this project")
  else if i.assignedTo.getD 0 != 0
      && !hasProjectAccess db i.projectId (i.assignedTo.getD 0) then
    .error (.validationFailed "Assigned user is not a project member")
  else
    let task : Task :=
      { id := nextTaskId db
        title := i.title
        description := i.description
        project_id := i.projectId
        assigned_to := if i.assignedTo.getD 0 != 0 then i.assignedTo else none
        created_by := userId
        status := i.status.getD "todo"
        priority := i.priority.getD "medium"
        due_date := i.dueDate
        completed_at := none
        created_at := now }
    .ok ({ db with tasks := db.tasks ++ [task] }, task)

/-- Request body of PUT /api/tasks/:id; a `some` field is one present in the
JSON body (`updates.field !== undefined`). -/
structure UpdateTaskInput where
  title : Option String
  description : Option String
  assignedTo : Option Nat
  priority : Option String
  status : Option String
  dueDate : Option Nat
deriving Repr, DecidableEq

/-- Express-validator rules on PUT /api/tasks/:id, each applied only when the
field is present. -/
def validUpdateTaskInput (i : UpdateTaskInput) : Bool :=
  (match i.title with | none => true | some t => 1 ≤ t.length && t.length ≤ 200)
    && (match i.description with | none => true | some d => d.length ≤ 2000)
    && (match i.priority with | none => true | some p => validPriority p)
    && (match i.status with | none => true | some s => validStatus s)

/-- True iff the update body contains at least one recognized field
(`updateFields.length > 0` in the handler). -/
def updateTaskHasFields (i : UpdateTaskInput) : Bool :=
  i.title.isSome || i.description.isSome || i.assignedTo.isSome
    || i.priority.isSome || i.status.isSome || i.dueDate.isSome

/-- The field-by-field effect of the PUT /api/tasks/:id UPDATE statement on
one task row: each present field overwrites the column, and a present
`status` additionally sets `completed_at = CURRENT_TIMESTAMP` when the new
status is done and `completed_at = NULL` otherwise. `assigned_to` is stored
as given, with no membership validation. -/
def applyTaskUpdate (t : Task) (i : UpdateTaskInput) (now : Nat) : Task :=
  { t with
    title := i.title.getD t.title
    description := match i.description with | none => t.description | some d => some d
    assigned_to := match i.assignedTo with | none => t.assigned_to | some a => some a
    priority := i.priority.getD t.priority
    status := i.status.getD t.status
    completed_at :=
      match i.status with
      | none => t.completed_at
      | some s => if s == "done" then some now else none
    due_date := match i.dueDate with | none => t.due_date | some d => some d }

/-- Model of PUT /api/tasks/:id (tasks.js lines 285-399): after validation,
load the task (404 when absent), require the project-access query to be
non-empty (403 otherwise), require at least one recognized field (400 "No
fields to update"), then run the UPDATE on the row with that id. -/
def updateTask (db : DB) (userId taskId : Nat) (i : UpdateTaskInput)
    (now : Nat) : Except ApiError (DB × Task) :=
  if !validUpdateTaskInput i then
    .error (.validationFailed "Invalid task input")
  else
    match findTask db taskId with
    | none => .error (.notFound "Task not found")
    | some task =>
      if !hasProjectAccess db task.project_id userId then
        .error (.forbidden "No access to this task")
      else if !updateTaskHasFields i then
        .error (.validationFailed "No fields to update")
      else
        let updated := applyTaskUpdate task i now
        .ok ({ db with
                tasks := db.tasks.map (fun t =>
                  if t.id == taskId then applyTaskUpdate t i now else t) },
             updated)

/-! ## Task listing and its ORDER BY (GET /api/tasks) -/

/-- The `CASE t.priority WHEN 'urgent' THEN 1 WHEN 'high' THEN 2 WHEN
'medium' THEN 3 WHEN 'low' THEN 4 END` expression of the listing ORDER BY;
a priority outside the four cases yields SQL NULL, which sorts before every
number under ASC, hence `WithBot`. -/
def priorityRank (p : String) : WithBot Nat :=
  if p == "urgent" then (1 : Nat)
  else if p == "high" then (2 : Nat)
  else if p == "medium" then (3 : Nat)
  else if p == "low" then (4 : Nat)
  else ⊥

/-- The `t.due_date ASC NULLS LAST` sort key: a NULL due date sorts after
every date, hence `WithTop`. -/
def dueDateKey (t : Task) : WithTop Nat :=
  match t.due_date with
  | none => ⊤
  | some d => (d : WithTop Nat)

/-- The three-key lexicographic order of the listing's ORDER BY clause
(tasks.js lines 85-93): priority rank ascending, then due date ascending with
nulls last, then created_at descending. -/
def taskLe (a b : Task) : Bool :=
  decide (priorityRank a.priority < priorityRank b.priority)
    || (decide (priorityRank a.priority = priorityRank b.priority)
      && (decide (dueDateKey a < dueDateKey b)
        || (decide (dueDateKey a = dueDateKey b)
          && decide (b.created_at ≤ a.created_at))))

/-- Query-string filters of GET /api/tasks. -/
structure TaskFilters where
  projectId : Option Nat
  status : Option String
  priority : Option String
  assignedTo : Option Nat
  search : Option String
deriving Repr, DecidableEq

/-- Case-insensitive substring test modelling SQLite `LIKE '%s%'`. -/
def likeContains (hay : String) (needle : String) : Bool :=
  decide (List.IsInfix needle.toLower.toList hay.toLower.toList)

/-- The WHERE clause of GET /api/tasks applied to one task row: the task's
project must pass the access query for the requesting user, and each supplied
filter must match (`LIKE '%search%'` over title or description for the
free-text filter). -/
def taskMatches (db : DB) (userId : Nat) (f : TaskFilters) (t : Task) : Bool :=
  hasProjectAccess db t.project_id userId
    && (match f.projectId with | none => true | some p => t.project_id == p)
    && (match f.status with | none => true | some s => t.status == s)
    && (match f.priority with | none => true | some p => t.priority == p)
    && (match f.assignedTo with | none => true | some a => t.assigned_to == some a)
    && (match f.search with
        | none => true
        | some s => likeContains t.title s
            || likeContains (t.description.getD "") s)

/-- Model of GET /api/tasks (tasks.js lines 17-105): the rows satisfying the
WHERE clause, ordered by the three-key ORDER BY. -/
def listTasks (db : DB) (userId : Nat) (f : TaskFilters) : List Task :=
  (db.tasks.filter (taskMatches db userId f)).mergeSort taskLe

/-! ## User-management routes (PUT /api/users/:id/role, PUT
/api/users/:id/toggle-active) -/

/-- Model of PUT /api/users/:id/role: the route is gated by `requireAdmin`
(403 for a non-admin principal), validates `role` against
{admin, manager, member}, loads the target (404 when absent), and — only when
the target currently is an admin and the new role is not admin — refuses with
400 "Cannot remove the last admin" when the active-admin count is ≤ 1;
otherwise `UPDATE users SET role = ? WHERE id = ?`. -/
def updateUserRole (db : DB) (principal : User) (targetId : Nat)
    (role : String) : Except ApiError DB :=
  if principal.role != "admin" then
    .error (.forbidden "Insufficient permissions")
  else if !(role == "admin" || role == "manager" || role == "member") then
    .error (.validationFailed "Invalid role")
  else
    match findUser db targetId with
    | none => .error (.notFound "User not found")
    | some user =>
      if user.role == "admin" && role != "admin"
          && activeAdminCount db ≤ 1 then
        .error (.validationFailed "Cannot remove the last admin")
      else
        .ok { db with
              users := db.users.map (fun u =>
                if u.id == targetId then { u with role := role } else u) }

/-- Model of PUT /api/users/:id/toggle-active: gated by `requireAdmin`;
before touching any state it refuses 400 "Cannot deactivate your own
account" when the target id equals the principal's own id; then it loads the
target (404 when absent), refuses 400 "Cannot deactivate the last admin"
when the target is an active admin and the active-admin count is ≤ 1, and
otherwise flips the target's `is_active` flag. -/
def toggleUserActive (db : DB) (principal : User) (targetId : Nat) :
    Except ApiError DB :=
  if principal.role != "admin" then
    .error (.forbidden "Insufficient permissions")
  else if targetId == principal.id then
    .error (.validationFailed "Cannot deactivate your own account")
  else
    match findUser db targetId with
    | none => .error (.notFound "User not found")
    | some user =>
      if user.is_active && user.role == "admin"
          && activeAdminCount db ≤ 1 then
        .error (.validationFailed "Cannot deactivate the last admin")
      else
        .ok { db with
              users := db.users.map (fun u =>
                if u.id == targetId then { u with is_active := !u.is_active }
                else u) }

/-! ## Membership removal (DELETE /api/projects/:id/members/:userId) -/

/-- Model of DELETE /api/projects/:id/members/:userId (projects.js lines
367-426): load the project (404 when absent); refuse 400 "Cannot remove
project owner" when the target is the project owner; allow when the target is
the caller themselves, the caller is the project owner, or the caller's
membership role is owner or admin (403 otherwise); then `DELETE FROM
project_members WHERE project_id = ? AND user_id = ?`, answering 404 "Member
not found in project" when that deletes zero rows. -/
def removeProjectMember (db : DB) (principal : User)
    (projectId targetId : Nat) : Except ApiError DB :=
  match findProject db projectId with
  | none => .error (.notFound "Project not found")
  | some project =>
    if targetId == project.owner_id then
      .error (.validationFailed "Cannot remove project owner")
    else
      let currentUserRole := findMemberRole db projectId principal.id
      if targetId != principal.id
          && project.owner_id != principal.id
          && !(currentUserRole == some "owner" || currentUserRole == some "admin") then
        .error (.forbidden "Permission denied")
      else
        let remaining := db.project_members.filter
          (fun m => !(m.project_id == projectId && m.user_id == targetId))
        if remaining.length == db.project_members.length then
          .error (.notFound "Member not found in project")
        else
          .ok { db with project_members := remaining }

/-- The membership row created for the owner by POST /api/projects
(projects.js lines 94-99): `INSERT INTO project_members (project_id,
user_id, role) VALUES (?, ?, 'owner')`. -/
def ownerMembershipRow (projectId ownerId : Nat) : Membership :=
  { project_id := projectId, user_id := ownerId, role := "owner" }

/-! ## Concrete fixtures used by counterexamples and witnesses -/

namespace Fx

/-- User 1: the project owner, a global admin. -/
def alice : User :=
  { id := 1, username := "alice", email := "alice@x.com", password_hash := "h1"
    full_name := "Alice A", role := "admin", is_active := true }

/-- User 2: an active member with no membership in project 1. -/
def bob : User :=
  { id := 2, username := "bob", email := "bob@x.com", password_hash := "h2"
    full_name := "Bob B", role := "member", is_active := true }

/-- User 3: an active member holding a member row in project 1. -/
def carol : User :=
  { id := 3, username := "carol", email := "carol@x.com", password_hash := "h3"
    full_name := "Carol C", role := "member", is_active := true }

/-- User 4: a second active global admin. -/
def dana : User :=
  { id := 4, username := "dana", email := "dana@x.com", password_hash := "h4"
    full_name := "Dana D", role := "admin", is_active := true }

/-- User 5: a deactivated member. -/
def eve : User :=
  { id := 5, username := "eve", email := "eve@x.com", password_hash := "h5"
    full_name := "Eve E", role := "member", is_active := false }

/-- Project 1 "Launch", owned by alice. -/
def launch : Project :=
  { id := 1, name := "Launch", description := none, owner_id := 1
    status := "active", color := "#3B82F6" }

/-- Task 10 in project 1, created by and assigned to alice. -/
def task10 : Task :=
  { id := 10, title := "Write docs", description := none, project_id := 1
    assigned_to := some 1, created_by := 1, status := "todo"
    priority := "medium", due_date := none, completed_at := none
    created_at := 5 }

/-- The base store: five users, project 1 with owner and carol as members,
and task 10. -/
def baseDB : DB :=
  { users := [alice, bob, carol, dana, eve]
    projects := [launch]
    project_members := [ownerMembershipRow 1 1, ⟨1, 3, "member"⟩]
    tasks := [task10] }

end Fx

/-! ## Claim theorems -/

/-- Claim C1: the claim states that a read of an existing resource by an
authenticated principal who is neither the project owner nor a member fails
with NotFound, never Forbidden. The code disagrees: GET /api/tasks/:id first
checks only existence of the task, then answers 403 "Access denied" when the
access query is empty. Concretely, task 10 exists in project 1, bob (user 2)
has no access to project 1, and his read yields the Forbidden error — while a
truly non-existent id yields NotFound, so the two cases are distinguishable,
contradicting the claim. -/
theorem task_read_without_access_is_forbidden :
    findTask Fx.baseDB 10 = some Fx.task10
    ∧ hasProjectAccess Fx.baseDB 1 2 = false
    ∧ getTask Fx.baseDB 2 10 = .error (.forbidden "Access denied")
    ∧ getTask Fx.baseDB 2 999 = .error (.notFound "Task not found") :=
  ⟨rfl, rfl, rfl, rfl⟩

/-- Claim C4: a token freshly issued for user U with the correct signing
secret, verified before its expiry while U's row is unchanged in the store
and active, authenticates successfully and the attached principal is exactly
U's row — in particular its id, username and global role are U's values at
issuance time. -/
theorem token_roundtrip_yields_issuing_user
    (db : DB) (secret : String) (u : User) (now expiry tVerify : Nat)
    (hfind : findUser db u.id = some u)
    (hactive : u.is_active = true)
    (hexp : tVerify < now + expiry) :
    authenticateToken db secret tVerify (some (generateToken u secret now expiry))
      = .ok u := by
  have h1 : ¬(now + expiry ≤ tVerify) := by omega
  simp [authenticateToken, generateToken, hfind, hactive, h1]

/-- Witness for C4: alice's fresh token verifies back to alice. -/
theorem token_roundtrip_yields_issuing_user_witness :
    findUser Fx.baseDB Fx.alice.id = some Fx.alice
    ∧ Fx.alice.is_active = true
    ∧ (100 : Nat) < 50 + 604800
    ∧ authenticateToken Fx.baseDB "sec" 100
        (some (generateToken Fx.alice "sec" 50 604800)) = .ok Fx.alice :=
  ⟨rfl, rfl, by omega,
    token_roundtrip_yields_issuing_user Fx.baseDB "sec" Fx.alice 50 604800 100
      rfl rfl (by omega)⟩

/-- Claim C5: a successful registration against a store with zero users
creates the user with global role admin, and against a store with at least
one user it creates the user with role member. -/
theorem first_registration_is_admin
    (db : DB) (i : RegisterInput) (db' : DB) (u : User)
    (hok : registerUser db i = .ok (db', u)) :
    (db.users.length = 0 → u.role = "admin")
    ∧ (db.users.length ≠ 0 → u.role = "member") := by
  unfold registerUser at hok
  split at hok
  · exact absurd hok (by simp)
  split at hok
  · exact absurd hok (by simp)
  injection hok with h
  obtain ⟨h1, h2⟩ := Prod.mk.injEq .. ▸ h
  subst h2
  constructor
  · intro hz; simp [hz]
  · intro hnz; simp [hnz]

/-- Witness for C5: registering into the empty store yields an admin, the
first user of the system. -/
theorem first_registration_is_admin_witness :
    registerUser { users := [], projects := [], project_members := [], tasks := [] }
        { username := "alice", email := "alice@x.com", password := "secret1",
          fullName := "Alice A" }
      = .ok ({ users := [{ id := 1, username := "alice", email := "alice@x.com",
                           password_hash := "bcrypt:" ++ "secret1",
                           full_name := "Alice A", role := "admin",
                           is_active := true }]
               projects := [], project_members := [], tasks := [] },
             { id := 1, username := "alice", email := "alice@x.com",
               password_hash := "bcrypt:" ++ "secret1", full_name := "Alice A",
               role := "admin", is_active := true })
    ∧ ({ id := 1, username := "alice", email := "alice@x.com",
         password_hash := "bcrypt:" ++ "secret1", full_name := "Alice A",
         role := "admin", is_active := true } : User).role = "admin" :=
  ⟨rfl,
    (first_registration_is_admin
      { users := [], projects := [], project_members := [], tasks := [] }
      { username := "alice", email := "alice@x.com", password := "secret1",
        fullName := "Alice A" } _ _ rfl).1 rfl⟩

/-- Claim C9: a request carrying a token with a valid signature and unexpired
lifetime is still rejected with an Unauthorized error — and no principal is
attached — when the user the token was issued for has been deactivated or no
longer exists in the store; deactivation therefore invalidates outstanding
tokens immediately even without a revocation list. -/
theorem stale_token_for_gone_user_rejected
    (db : DB) (secret : String) (now : Nat) (t : Token)
    (hsig : t.signedWith = secret)
    (hexp : now < t.payload.exp)
    (hgone : findUser db t.payload.userId = none
      ∨ ∃ u, findUser db t.payload.userId = some u ∧ u.is_active = false) :
    ∃ msg, authenticateToken db secret now (some t)
      = .error (.unauthorized msg) := by
  have h1 : ¬(t.payload.exp ≤ now) := by omega
  rcases hgone with hnone | ⟨u, hu, hin⟩
  · exact ⟨"User not found", by simp [authenticateToken, hsig, h1, hnone]⟩
  · exact ⟨"Account is deactivated", by simp [authenticateToken, hsig, h1, hu, hin]⟩

/-- Witness for C9: a well-signed, unexpired token for the deactivated user
eve is rejected as unauthorized. -/
theorem stale_token_for_gone_user_rejected_witness :
    (Token.mk ⟨5, "eve", "member", 700000⟩ "sec").signedWith = "sec"
    ∧ (100 : Nat) < 700000
    ∧ (∃ u, findUser Fx.baseDB 5 = some u ∧ u.is_active = false)
    ∧ ∃ msg, authenticateToken Fx.baseDB "sec" 100
        (some (Token.mk ⟨5, "eve", "member", 700000⟩ "sec"))
      = .error (.unauthorized msg) :=
  ⟨rfl, by omega, ⟨Fx.eve, rfl, rfl⟩,
    stale_token_for_gone_user_rejected Fx.baseDB "sec" 100
      (Token.mk ⟨5, "eve", "member", 700000⟩ "sec") rfl (by decide)
      (Or.inr ⟨Fx.eve, rfl, rfl⟩)⟩

/-- Claim C10: for any admin principal, the activation toggle aimed at the
principal's own user id is refused with the validation error "Cannot
deactivate your own account" — unconditionally on the rest of the store, so
regardless of how many other active admins exist, and before any state is
touched (the handler checks the id before even loading the target row; an
error response leaves the store unchanged). -/
theorem admin_cannot_deactivate_self
    (db : DB) (principal : User)
    (hadmin : principal.role = "admin") :
    toggleUserActive db principal principal.id
      = .error (.validationFailed "Cannot deactivate your own account") := by
  simp [toggleUserActive, hadmin]

/-- Witness for C10: alice, an admin, cannot deactivate herself. -/
theorem admin_cannot_deactivate_self_witness :
    Fx.alice.role = "admin"
    ∧ toggleUserActive Fx.baseDB Fx.alice Fx.alice.id
      = .error (.validationFailed "Cannot deactivate your own account") :=
  ⟨rfl, admin_cannot_deactivate_self Fx.baseDB Fx.alice rfl⟩

/-- Claim C2, counterexample: the claim states that setting a task's assignee
to a non-member fails with a validation error at creation AND at update. The
update path has no such check: bob (user 2) is neither owner nor member of
project 1, yet alice's update of task 10 setting assignedTo to bob succeeds
and stores bob as the assignee. -/
theorem update_assigns_nonmember_without_validation :
    hasProjectAccess Fx.baseDB 1 2 = false
    ∧ (updateTask Fx.baseDB 1 10
          { title := none, description := none, assignedTo := some 2,
            priority := none, status := none, dueDate := none } 7).map
        (fun r => r.2.assigned_to)
      = .ok (some 2) :=
  ⟨rfl, rfl⟩

/-- Claim C2, amended: only task creation validates the assignee. A creation
request with an otherwise valid body, a creator who has project access, and a
(nonzero-id) assignee who is neither the project owner nor a member fails
with the validation error "Assigned user is not a project member", and no
task is stored (an error response leaves the store unchanged); task updates
store the given assignee without this validation. -/
theorem create_with_nonmember_assignee_rejected
    (db : DB) (userId : Nat) (i : CreateTaskInput) (now a : Nat)
    (ha : i.assignedTo = some a) (ha0 : a ≠ 0)
    (hv : validCreateTaskInput i = true)
    (hacc : hasProjectAccess db i.projectId userId = true)
    (hmem : hasProjectAccess db i.projectId a = false) :
    createTask db userId i now
      = .error (.validationFailed "Assigned user is not a project member") := by
  simp [createTask, hv, hacc, ha, hmem, ha0]

/-- Witness for the amended C2: alice creating a task in project 1 assigned
to bob, a non-member, is rejected with the membership validation error. -/
theorem create_with_nonmember_assignee_rejected_witness :
    validCreateTaskInput
        { title := "T", projectId := 1, description := none,
          assignedTo := some 2, priority := none, status := none,
          dueDate := none } = true
    ∧ hasProjectAccess Fx.baseDB 1 1 = true
    ∧ hasProjectAccess Fx.baseDB 1 2 = false
    ∧ createTask Fx.baseDB 1
        { title := "T", projectId := 1, description := none,
          assignedTo := some 2, priority := none, status := none,
          dueDate := none } 7
      = .error (.validationFailed "Assigned user is not a project member") :=
  ⟨rfl, rfl, rfl,
    create_with_nonmember_assignee_rejected Fx.baseDB 1
      { title := "T", projectId := 1, description := none,
        assignedTo := some 2, priority := none, status := none,
        dueDate := none } 7 2 rfl (by decide) rfl rfl rfl⟩

/-- Claim C6, counterexample: the claim states a task's completion timestamp
is non-null exactly when its status is done, however that status was reached,
including creation with status done. The INSERT of POST /api/tasks never sets
completed_at, so a task created directly with status done has status done and
a null completion timestamp. -/
theorem task_created_done_has_null_completed_at :
    (createTask Fx.baseDB 1
        { title := "T", projectId := 1, description := none,
          assignedTo := none, priority := none, status := some "done",
          dueDate := none } 7).map
      (fun r => (r.2.status, r.2.completed_at))
    = .ok ("done", none) :=
  rfl

/-- Claim C6, amended: on the update path the derived field behaves as
claimed — a successful update that sets status to done stores completedAt =
now (non-null), and one that sets any other status clears it to null — but
task creation always stores completedAt = null, even when the initial status
is done, so the biconditional "completedAt non-null iff status done" holds
only for statuses reached through an update. -/
theorem completed_at_tracks_status_on_update :
    (∀ (db : DB) (userId taskId : Nat) (i : UpdateTaskInput) (now : Nat)
        (db' : DB) (t' : Task),
        i.status = some "done" →
        updateTask db userId taskId i now = .ok (db', t') →
        t'.completed_at = some now ∧ t'.status = "done")
    ∧ (∀ (db : DB) (userId taskId : Nat) (i : UpdateTaskInput) (now : Nat)
        (db' : DB) (t' : Task) (s : String),
        i.status = some s → s ≠ "done" →
        updateTask db userId taskId i now = .ok (db', t') →
        t'.completed_at = none)
    ∧ (∀ (db : DB) (userId : Nat) (i : CreateTaskInput) (now : Nat)
        (db' : DB) (t' : Task),
        createTask db userId i now = .ok (db', t') →
        t'.completed_at = none) := by
  refine ⟨?_, ?_, ?_⟩
  · intro db userId taskId i now db' t' hstat hok
    unfold updateTask at hok
    split at hok
    · exact absurd hok (by simp)
    split at hok
    · exact absurd hok (by simp)
    split at hok
    · exact absurd hok (by simp)
    split at hok
    · exact absurd hok (by simp)
    injection hok with h
    obtain ⟨h1, h2⟩ := Prod.mk.injEq .. ▸ h
    subst h2
    constructor
    · simp [applyTaskUpdate, hstat]
    · simp [applyTaskUpdate, hstat]
  · intro db userId taskId i now db' t' s hstat hs hok
    unfold updateTask at hok
    split at hok
    · exact absurd hok (by simp)
    split at hok
    · exact absurd hok (by simp)
    split at hok
    · exact absurd hok (by simp)
    split at hok
    · exact absurd hok (by simp)
    injection hok with h
    obtain ⟨h1, h2⟩ := Prod.mk.injEq .. ▸ h
    subst h2
    simp [applyTaskUpdate, hstat, hs]
  · intro db userId i now db' t' hok
    unfold createTask at hok
    split at hok
    · exact absurd hok (by simp)
    split at hok
    · exact absurd hok (by simp)
    split at hok
    · exact absurd hok (by simp)
    injection hok with h
    obtain ⟨h1, h2⟩ := Prod.mk.injEq .. ▸ h
    subst h2
    rfl

/-- Witness for the amended C6: alice's update of task 10 to status done at
time 7 stores completedAt = 7, and her follow-up update back to todo at time
9 clears it. -/
theorem completed_at_tracks_status_on_update_witness :
    (updateTask Fx.baseDB 1 10
        { title := none, description := none, assignedTo := none,
          priority := none, status := some "done", dueDate := none } 7).map
      (fun r => (r.2.completed_at, r.2.status)) = .ok (some 7, "done")
    ∧ (updateTask Fx.baseDB 1 10
        { title := none, description := none, assignedTo := none,
          priority := none, status := some "todo", dueDate := none } 9).map
      (fun r => r.2.completed_at) = .ok none := by
  have h1 := completed_at_tracks_status_on_update.1 Fx.baseDB 1 10
    { title := none, description := none, assignedTo := none,
      priority := none, status := some "done", dueDate := none } 7 _ _ rfl rfl
  have h2 := completed_at_tracks_status_on_update.2.1 Fx.baseDB 1 10
    { title := none, description := none, assignedTo := none,
      priority := none, status := some "todo", dueDate := none } 9 _ _ "todo"
    rfl (by decide) rfl
  exact ⟨by rw [show (updateTask Fx.baseDB 1 10
      { title := none, description := none, assignedTo := none,
        priority := none, status := some "done", dueDate := none } 7)
      = .ok _ from rfl]; simp [Except.map, h1.1, h1.2], by
    rw [show (updateTask Fx.baseDB 1 10
      { title := none, description := none, assignedTo := none,
        priority := none, status := some "todo", dueDate := none } 9)
      = .ok _ from rfl]; simp [Except.map, h2]⟩

/-- Claim C8, counterexample: the claim states that every member — including
the project owner, who holds a Membership row with role owner — can remove
themselves. The handler refuses to remove the project owner before any
permission logic: alice owns project 1 and holds its owner membership row,
yet her self-removal is rejected with 400 "Cannot remove project owner". -/
theorem owner_cannot_remove_self :
    (Fx.baseDB.project_members.any
        (fun m => m.project_id == 1 && m.user_id == Fx.alice.id
          && m.role == "owner")) = true
    ∧ removeProjectMember Fx.baseDB Fx.alice 1 Fx.alice.id
      = .error (.validationFailed "Cannot remove project owner") :=
  ⟨rfl, rfl⟩

/-- Claim C8, amended: every user who holds a Membership row for a project
and is not the project's owner can remove themselves — the self-removal
succeeds and deletes exactly their membership rows for that project; the
owner's self-removal is refused with the validation error "Cannot remove
project owner". -/
theorem member_can_remove_self
    (db : DB) (principal : User) (projectId : Nat) (proj : Project)
    (hproj : findProject db projectId = some proj)
    (howner : principal.id ≠ proj.owner_id)
    (hmem : db.project_members.any
        (fun m => m.project_id == projectId && m.user_id == principal.id)
      = true) :
    ∃ db', removeProjectMember db principal projectId principal.id = .ok db'
      ∧ db'.project_members = db.project_members.filter
          (fun m => !(m.project_id == projectId && m.user_id == principal.id)) := by
  have hlen : (db.project_members.filter
      (fun m => !(m.project_id == projectId && m.user_id == principal.id))).length
      < db.project_members.length := by
    rw [List.length_filter_lt_length_iff_exists]
    obtain ⟨m, hm, hpm⟩ := List.any_eq_true.mp hmem
    exact ⟨m, hm, by simp [hpm]⟩
  have hne : ((db.project_members.filter
      (fun m => !(m.project_id == projectId && m.user_id == principal.id))).length
      = db.project_members.length) → False := fun h => absurd h (Nat.ne_of_lt hlen)
  refine ⟨⟨db.users, db.projects,
    db.project_members.filter
      (fun m => !(m.project_id == projectId && m.user_id == principal.id)),
    db.tasks⟩, ?_, rfl⟩
  simp only [removeProjectMember, hproj]
  rw [if_neg (by simp [howner])]
  rw [if_neg (by simp)]
  rw [if_neg (by simpa using hne)]

/-- Witness for the amended C8: carol, a plain member of project 1, removes
herself successfully and her membership row is gone. -/
theorem member_can_remove_self_witness :
    findProject Fx.baseDB 1 = some Fx.launch
    ∧ Fx.carol.id ≠ Fx.launch.owner_id
    ∧ ∃ db', removeProjectMember Fx.baseDB Fx.carol 1 Fx.carol.id = .ok db'
      ∧ db'.project_members = Fx.baseDB.project_members.filter
          (fun m => !(m.project_id == 1 && m.user_id == Fx.carol.id)) :=
  ⟨rfl, by decide,
    member_can_remove_self Fx.baseDB Fx.carol 1 Fx.launch rfl (by decide) rfl⟩

/-! ## Sortedness of the task listing (C7) -/

/-- The ordering the spec prescribes for the task listing, as a relation:
priority rank strictly first (ascending, SQL NULL first), then due date
(ascending, nulls last), then creation time descending. -/
def specTaskOrder (a b : Task) : Prop :=
  priorityRank a.priority < priorityRank b.priority
    ∨ (priorityRank a.priority = priorityRank b.priority
      ∧ (dueDateKey a < dueDateKey b
        ∨ (dueDateKey a = dueDateKey b ∧ b.created_at ≤ a.created_at)))

lemma taskLe_iff (a b : Task) : taskLe a b = true ↔ specTaskOrder a b := by
  simp [taskLe, specTaskOrder, Bool.or_eq_true, Bool.and_eq_true,
    decide_eq_true_eq]

lemma specTaskOrder_trans {a b c : Task}
    (h1 : specTaskOrder a b) (h2 : specTaskOrder b c) : specTaskOrder a c := by
  unfold specTaskOrder at h1 h2 ⊢
  rcases h1 with h1 | ⟨e1, h1⟩
  · rcases h2 with h2 | ⟨e2, _⟩
    · exact Or.inl (lt_trans h1 h2)
    · exact Or.inl (by rw [← e2]; exact h1)
  · rcases h2 with h2 | ⟨e2, h2⟩
    · exact Or.inl (by rw [e1]; exact h2)
    · refine Or.inr ⟨e1.trans e2, ?_⟩
      rcases h1 with h1 | ⟨f1, h1⟩
      · rcases h2 with h2 | ⟨f2, _⟩
        · exact Or.inl (lt_trans h1 h2)
        · exact Or.inl (by rw [← f2]; exact h1)
      · rcases h2 with h2 | ⟨f2, h2⟩
        · exact Or.inl (by rw [f1]; exact h2)
        · exact Or.inr ⟨f1.trans f2, le_trans h2 h1⟩

lemma specTaskOrder_total (a b : Task) :
    specTaskOrder a b ∨ specTaskOrder b a := by
  unfold specTaskOrder
  rcases lt_trichotomy (priorityRank a.priority) (priorityRank b.priority)
    with h | h | h
  · exact Or.inl (Or.inl h)
  · rcases lt_trichotomy (dueDateKey a) (dueDateKey b) with h' | h' | h'
    · exact Or.inl (Or.inr ⟨h, Or.inl h'⟩)
    · rcases Nat.le_total b.created_at a.created_at with h'' | h''
      · exact Or.inl (Or.inr ⟨h, Or.inr ⟨h', h''⟩⟩)
      · exact Or.inr (Or.inr ⟨h.symm, Or.inr ⟨h'.symm, h''⟩⟩)
    · exact Or.inr (Or.inr ⟨h.symm, Or.inl h'⟩)
  · exact Or.inr (Or.inl h)

lemma taskLe_trans (a b c : Task)
    (h1 : taskLe a b = true) (h2 : taskLe b c = true) : taskLe a c = true :=
  (taskLe_iff a c).mpr
    (specTaskOrder_trans ((taskLe_iff a b).mp h1) ((taskLe_iff b c).mp h2))

lemma taskLe_total (a b : Task) : (taskLe a b || taskLe b a) = true := by
  rw [Bool.or_eq_true, taskLe_iff, taskLe_iff]
  exact specTaskOrder_total a b

/-- Claim C7: every list produced by the task-listing operation is sorted by
the ORDER BY of GET /api/tasks — priority rank ascending, then due date
ascending with null due dates last, then creation time descending — and that
rank order places urgent before high before medium before low. -/
theorem task_listing_sorted :
    (∀ (db : DB) (userId : Nat) (f : TaskFilters),
      (listTasks db userId f).Pairwise specTaskOrder)
    ∧ priorityRank "urgent" < priorityRank "high"
    ∧ priorityRank "high" < priorityRank "medium"
    ∧ priorityRank "medium" < priorityRank "low" := by
  refine ⟨?_, ?_, ?_, ?_⟩
  · intro db userId f
    have hs := List.sorted_mergeSort taskLe_trans taskLe_total
      (db.tasks.filter (taskMatches db userId f))
    exact hs.imp (fun h => (taskLe_iff _ _).mp h)
  · decide
  · decide
  · decide

/-! ## Last-admin protection (C3) -/

/-- In a user table whose ids are pairwise distinct (the PRIMARY KEY
constraint), two rows with the same id are the same row. -/
lemma user_eq_of_id_eq {l : List User} (hn : (l.map User.id).Nodup)
    {x y : User} (hx : x ∈ l) (hy : y ∈ l) (h : x.id = y.id) : x = y :=
  List.inj_on_of_nodup_map hn hx hy h

/-- When at least two rows count as active admins, some active admin has an
id different from any given target id. -/
lemma exists_other_active_admin {db : DB}
    (hn : (db.users.map User.id).Nodup)
    (h2 : 2 ≤ activeAdminCount db) (tid : Nat) :
    ∃ v ∈ db.users, (v.role == "admin" && v.is_active) = true ∧ v.id ≠ tid := by
  unfold activeAdminCount at h2
  rcases hfl : db.users.filter (fun u => u.role == "admin" && u.is_active)
    with _ | ⟨a, _ | ⟨b, t⟩⟩
  · rw [hfl] at h2; simp at h2
  · rw [hfl] at h2; simp at h2
  · have hnf : ((db.users.filter
        (fun u => u.role == "admin" && u.is_active)).map User.id).Nodup :=
      List.Nodup.sublist ((List.filter_sublist _).map User.id) hn
    rw [hfl] at hnf
    have hab : a.id ≠ b.id := by
      have h1 := (List.nodup_cons.mp hnf).1
      intro h
      exact h1 (h ▸ List.mem_cons_self ..)
    have ha := List.mem_filter.mp (by
      rw [hfl]; exact List.mem_cons_self .. :
      a ∈ db.users.filter (fun u => u.role == "admin" && u.is_active))
    have hb := List.mem_filter.mp (by
      rw [hfl]; exact List.mem_cons_of_mem a (List.mem_cons_self ..) :
      b ∈ db.users.filter (fun u => u.role == "admin" && u.is_active))
    rcases eq_or_ne a.id tid with h | h
    · exact ⟨b, hb.1, hb.2, fun hh => hab (h ▸ hh ▸ rfl)⟩
    · exact ⟨a, ha.1, ha.2, h⟩

/-- A successful role change leaves at least one active admin in a store
that had one and whose user ids are pairwise distinct. -/
lemma role_update_keeps_active_admin
    (db : DB) (principal : User) (targetId : Nat) (role : String) (db' : DB)
    (hn : (db.users.map User.id).Nodup)
    (hinv : hasActiveAdmin db = true)
    (hok : updateUserRole db principal targetId role = .ok db') :
    hasActiveAdmin db' = true := by
  unfold updateUserRole at hok
  split at hok
  · exact absurd hok (by simp)
  split at hok
  · exact absurd hok (by simp)
  split at hok
  · exact absurd hok (by simp)
  rename_i user heq
  split at hok
  · exact absurd hok (by simp)
  rename_i hguard
  injection hok with h
  subst h
  unfold hasActiveAdmin at hinv ⊢
  obtain ⟨w, hw, hwp⟩ := List.any_eq_true.mp hinv
  obtain ⟨hw1, hw2⟩ : w.role = "admin" ∧ w.is_active = true := by
    simpa [Bool.and_eq_true] using hwp
  by_cases hid : w.id = targetId
  · by_cases hrole : role = "admin"
    · refine List.any_eq_true.mpr ⟨_, List.mem_map_of_mem _ hw, ?_⟩
      simp [hid, hrole, hw2]
    · have huser_mem : user ∈ db.users := List.mem_of_find?_eq_some heq
      have huser_id : user.id = targetId := by
        simpa using List.find?_some heq
      have huw : user = w :=
        user_eq_of_id_eq hn huser_mem hw (huser_id.trans hid.symm)
      have hcount : ¬(activeAdminCount db ≤ 1) := by
        intro hle
        exact hguard (by simp [huw, hw1, hrole, hle])
      have h2 : 2 ≤ activeAdminCount db := by omega
      obtain ⟨v, hv, hvp, hvid⟩ := exists_other_active_admin hn h2 targetId
      have hfv : (v.id == targetId) = false := by simp [hvid]
      refine List.any_eq_true.mpr ⟨_, List.mem_map_of_mem _ hv, ?_⟩
      simpa [hfv] using hvp
  · have hfw : (w.id == targetId) = false := by simp [hid]
    refine List.any_eq_true.mpr ⟨_, List.mem_map_of_mem _ hw, ?_⟩
    simpa [hfw] using hwp

/-- A successful activation toggle leaves at least one active admin in a
store that had one and whose user ids are pairwise distinct. -/
lemma toggle_active_keeps_active_admin
    (db : DB) (principal : User) (targetId : Nat) (db' : DB)
    (hn : (db.users.map User.id).Nodup)
    (hinv : hasActiveAdmin db = true)
    (hok : toggleUserActive db principal targetId = .ok db') :
    hasActiveAdmin db' = true := by
  unfold toggleUserActive at hok
  split at hok
  · exact absurd hok (by simp)
  split at hok
  · exact absurd hok (by simp)
  split at hok
  · exact absurd hok (by simp)
  rename_i user heq
  split at hok
  · exact absurd hok (by simp)
  rename_i hguard
  injection hok with h
  subst h
  unfold hasActiveAdmin at hinv ⊢
  obtain ⟨w, hw, hwp⟩ := List.any_eq_true.mp hinv
  obtain ⟨hw1, hw2⟩ : w.role = "admin" ∧ w.is_active = true := by
    simpa [Bool.and_eq_true] using hwp
  by_cases hid : w.id = targetId
  · have huser_mem : user ∈ db.users := List.mem_of_find?_eq_some heq
    have huser_id : user.id = targetId := by
      simpa using List.find?_some heq
    have huw : user = w :=
      user_eq_of_id_eq hn huser_mem hw (huser_id.trans hid.symm)
    have hcount : ¬(activeAdminCount db ≤ 1) := by
      intro hle
      exact hguard (by simp [huw, hw1, hw2, hle])
    have h2 : 2 ≤ activeAdminCount db := by omega
    obtain ⟨v, hv, hvp, hvid⟩ := exists_other_active_admin hn h2 targetId
    have hfv : (v.id == targetId) = false := by simp [hvid]
    refine List.any_eq_true.mpr ⟨_, List.mem_map_of_mem _ hv, ?_⟩
    simpa [hfv] using hvp
  · have hfw : (w.id == targetId) = false := by simp [hid]
    refine List.any_eq_true.mpr ⟨_, List.mem_map_of_mem _ hw, ?_⟩
    simpa [hfw] using hwp

/-- Claim C3: in a store whose user ids are pairwise distinct and that
contains at least one active admin, every successful global-role change and
every successful activation toggle leaves at least one active admin — the
handlers refuse, with the last-admin validation error, any demotion or
deactivation that would leave zero active admins system-wide. -/
theorem last_admin_invariant_preserved :
    (∀ (db : DB) (principal : User) (targetId : Nat) (role : String) (db' : DB),
      (db.users.map User.id).Nodup →
      hasActiveAdmin db = true →
      updateUserRole db principal targetId role = .ok db' →
      hasActiveAdmin db' = true)
    ∧ (∀ (db : DB) (principal : User) (targetId : Nat) (db' : DB),
      (db.users.map User.id).Nodup →
      hasActiveAdmin db = true →
      toggleUserActive db principal targetId = .ok db' →
      hasActiveAdmin db' = true) :=
  ⟨role_update_keeps_active_admin, toggle_active_keeps_active_admin⟩

namespace Fx

/-- The base store after dana demotes alice to member. -/
def demotedDB : DB :=
  { baseDB with
    users := [{ alice with role := "member" }, bob, carol, dana, eve] }

end Fx

/-- Witness for C3: with two active admins (alice and dana), dana's demotion
of alice succeeds and an active admin remains. -/
theorem last_admin_invariant_preserved_witness :
    (Fx.baseDB.users.map User.id).Nodup
    ∧ hasActiveAdmin Fx.baseDB = true
    ∧ updateUserRole Fx.baseDB Fx.dana 1 "member" = .ok Fx.demotedDB
    ∧ hasActiveAdmin Fx.demotedDB = true :=
  ⟨by decide, rfl, rfl,
    last_admin_invariant_preserved.1 Fx.baseDB Fx.dana 1 "member" Fx.demotedDB
      (by decide) rfl rfl⟩

end TaskForge
